import Mathlib

/-!
Verification of the VerticaPy fork repository slice: the Pylint CI workflow
configuration and the train/test-split tutorial notebook.  The workflow file is
embedded directly from its YAML source.  The splitting machinery
(`SEEDED_RANDOM`, `train_test_split`, the `order_by` sort) lives in the
library/database engine whose source is not part of this slice, so those
definitions are modelled from the specification's description of them.
-/

/-- Embedded from `src/unnamed/part_000`: one pylint command line of the
"Analysing the code with pylint" step, keeping the flags that the workflow
passes: `--fail-under`, `--disable` and `--extension-pkg-allow-list`. -/
structure PylintInvocation where
  failUnder : ℚ
  disable : List String
  extensionPkgAllowList : List String
  deriving DecidableEq

/-- Embedded from `src/unnamed/part_000`: the whole workflow file — its name,
the event that triggers it, the branch filter of that event, the Python
versions of the build matrix, and the pylint invocations of the lint step. -/
structure Workflow where
  name : String
  onEvent : String
  onBranches : List String
  matrixPythonVersions : List String
  lintInvocations : List PylintInvocation
  deriving DecidableEq

/-- First pylint command of the lint step:
`pylint --fail-under=10 --disable=typecheck,W,C,R
--extension-pkg-allow-list=scipy.special $(git ls-files '*.py')`. -/
def pylintErrorsInvocation : PylintInvocation :=
  { failUnder := 10
    disable := ["typecheck", "W", "C", "R"]
    extensionPkgAllowList := ["scipy.special"] }

/-- Second pylint command of the lint step:
`pylint --fail-under=9 --disable=typecheck,E,C,R $(git ls-files '*.py')`. -/
def pylintWarningsInvocation : PylintInvocation :=
  { failUnder := 9
    disable := ["typecheck", "E", "C", "R"]
    extensionPkgAllowList := [] }

/-- The workflow of `src/unnamed/part_000`: named "Pylint", triggered by
`pull_request` filtered to the branch `master` (the repository's principal
branch), a matrix over Python 3.9, 3.10 and 3.11, and a lint step running
pylint twice. -/
def pylintWorkflow : Workflow :=
  { name := "Pylint"
    onEvent := "pull_request"
    onBranches := ["master"]
    matrixPythonVersions := ["3.9", "3.10", "3.11"]
    lintInvocations := [pylintErrorsInvocation, pylintWarningsInvocation] }

/-- Semantics of pylint's `--fail-under=N` flag: the invocation fails the CI
job exactly when the score pylint computes is strictly below `N`. -/
def pylintFails (inv : PylintInvocation) (score : ℚ) : Prop :=
  score < inv.failUnder

/-- Modelled from the spec: the SQL function `SEEDED_RANDOM` is implemented by
the external database engine and its source is not in this repository; the
notebook only calls it.  The spec describes it as a deterministic
pseudo-random generator: for a user-provided seed it reproducibly returns a
value in the interval [0,1).  We model it as a linear congruential generator
mapped into [0,1) over the rationals. -/
def SEEDED_RANDOM (seed : ℕ) : ℚ :=
  (((1103515245 * seed + 12345) % 2147483648 : ℕ) : ℚ) / 2147483648

/-- Modelled from the spec: the seeded pseudo-random value computed for the
row at position `i` of the table, obtained by combining the split's seed with
the row's position.  The notebook notes that the resulting split "depends on
the order of your data", which this position dependence captures. -/
def rowRandom (seed i : ℕ) : ℚ :=
  SEEDED_RANDOM (seed + i)

/-- Modelled from the spec: `train_test_split` is implemented by the library
whose source is not in this slice; the notebook only calls it.  It splits a
table into a train and a test partition, deciding membership of each row by a
seeded pseudo-random value computed per row: the row goes to the test
partition when its value falls below the test fraction, and to the train
partition otherwise.  Rows are carried together with their positions. -/
def train_test_split (seed : ℕ) (testSize : ℚ) (l : List α) :
    List (ℕ × α) × List (ℕ × α) :=
  (l.enum.filter (fun p => !decide (rowRandom seed p.1 < testSize)),
   l.enum.filter (fun p => decide (rowRandom seed p.1 < testSize)))

/-- Modelled from the spec: sorting the table by a user-specified column,
represented by a key function on rows, as the `order_by` parameter does. -/
def sortByKey (key : α → ℕ) (l : List α) : List α :=
  l.insertionSort (fun a b => key a ≤ key b)

/-- Modelled from the spec: `train_test_split` with the `order_by` parameter
supplied first sorts the data by the user-specified column and then performs
the seeded split. -/
def train_test_split_ordered (seed : ℕ) (testSize : ℚ) (key : α → ℕ)
    (l : List α) : List (ℕ × α) × List (ℕ × α) :=
  train_test_split seed testSize (sortByKey key l)

theorem sortByKey_perm_eq {α : Type _} (key : α → ℕ)
    (hinj : Function.Injective key) {l1 l2 : List α} (h : l1.Perm l2) :
    sortByKey key l1 = sortByKey key l2 := by
  haveI : IsTotal α (fun a b => key a ≤ key b) :=
    ⟨fun a b => le_total (key a) (key b)⟩
  haveI : IsTrans α (fun a b => key a ≤ key b) :=
    ⟨fun _ _ _ hab hbc => le_trans hab hbc⟩
  haveI : IsAntisymm α (fun a b => key a ≤ key b) :=
    ⟨fun _ _ hab hba => hinj (le_antisymm hab hba)⟩
  exact List.eq_of_perm_of_sorted
    (((List.perm_insertionSort _ l1).trans h).trans
      (List.perm_insertionSort _ l2).symm)
    (List.sorted_insertionSort _ l1) (List.sorted_insertionSort _ l2)

/-- C1: `train_test_split` splits a table into train and test partitions that
are separate and non-overlapping, deciding membership of each row by a seeded
pseudo-random value computed per row; for every input table, every row is
assigned to exactly one of the two partitions: the train and test parts
together are a permutation of the (position-indexed) rows, and each row lies
in one part or the other but never in both. -/
theorem train_test_split_exact_partition (seed : ℕ) (testSize : ℚ)
    (l : List α) (p : ℕ × α) (hp : p ∈ l.enum) :
    (((train_test_split seed testSize l).1 ++
        (train_test_split seed testSize l).2).Perm l.enum) ∧
    (p ∈ (train_test_split seed testSize l).1 ∨
      p ∈ (train_test_split seed testSize l).2) ∧
    ¬ (p ∈ (train_test_split seed testSize l).1 ∧
        p ∈ (train_test_split seed testSize l).2) := by
  refine ⟨?_, ?_⟩
  · simp only [train_test_split]
    refine List.Perm.trans ?_
      (List.filter_append_perm (fun p => decide (rowRandom seed p.1 < testSize)) l.enum)
    exact List.perm_append_comm
  · by_cases h : rowRandom seed p.1 < testSize <;>
      simp [train_test_split, List.mem_filter, hp, h]

/-- Witness for C1 at a concrete table: seed 0, test fraction 1/2, table
[10, 20]; the indexed row (0, 10) is a member of the enumeration, and the
partition conclusion holds there. -/
theorem train_test_split_exact_partition_witness :
    (((train_test_split 0 (1/2) [10, 20]).1 ++
        (train_test_split 0 (1/2) [10, 20]).2).Perm ([10, 20] : List ℕ).enum) ∧
    (((0 : ℕ), (10 : ℕ)) ∈ (train_test_split 0 (1/2) [10, 20]).1 ∨
      ((0 : ℕ), (10 : ℕ)) ∈ (train_test_split 0 (1/2) [10, 20]).2) ∧
    ¬ (((0 : ℕ), (10 : ℕ)) ∈ (train_test_split 0 (1/2) [10, 20]).1 ∧
        ((0 : ℕ), (10 : ℕ)) ∈ (train_test_split 0 (1/2) [10, 20]).2) :=
  train_test_split_exact_partition 0 (1/2) [10, 20] (0, 10) (by decide)

/-- C2: for every fixed seed, repeated invocations of `SEEDED_RANDOM` with
that seed return the same value — two calls with equal seeds produce equal
results — and `SEEDED_RANDOM 0` always returns the same fixed value. -/
theorem SEEDED_RANDOM_deterministic :
    (∀ s t : ℕ, s = t → SEEDED_RANDOM s = SEEDED_RANDOM t) ∧
    SEEDED_RANDOM 0 = 12345 / 2147483648 := by
  constructor
  · intro s t h
    rw [h]
  · norm_num [SEEDED_RANDOM]

/-- Witness for C2 at the concrete seed 7. -/
theorem SEEDED_RANDOM_deterministic_witness :
    SEEDED_RANDOM 7 = SEEDED_RANDOM 7 :=
  SEEDED_RANDOM_deterministic.1 7 7 rfl

/-- C3: the CI workflow is triggered by the `pull_request` event, filtered to
exactly the branch `master`, which is the repository's principal (main)
branch. -/
theorem pylintWorkflow_trigger :
    pylintWorkflow.onEvent = "pull_request" ∧
    pylintWorkflow.onBranches = ["master"] :=
  ⟨rfl, rfl⟩

/-- C4: with the `order_by` parameter supplied, `train_test_split` first
sorts the data by the user-specified column (first conjunct, the definition's
behaviour), and this makes the split deterministic: for every table, every
seed and every test fraction, two runs of the split over the same data — the
same rows, in whatever arrival order — sorted by that column select the same
rows into train and test, provided the sort column identifies rows uniquely
(the notebook's "sorted by a unique feature"). -/
theorem train_test_split_order_by_deterministic (seed : ℕ) (testSize : ℚ)
    (key : α → ℕ) (hinj : Function.Injective key) (l1 l2 : List α)
    (h : l1.Perm l2) :
    train_test_split_ordered seed testSize key l1 =
      train_test_split seed testSize (sortByKey key l1) ∧
    train_test_split_ordered seed testSize key l1 =
      train_test_split_ordered seed testSize key l2 := by
  refine ⟨rfl, ?_⟩
  unfold train_test_split_ordered
  rw [sortByKey_perm_eq key hinj h]

/-- Witness for C4 at a concrete input: the identity key on ℕ is injective
and [2, 0, 1] is a permutation of [1, 2, 0], so the ordered splits agree. -/
theorem train_test_split_order_by_deterministic_witness :
    train_test_split_ordered 0 (1/2) id [2, 0, 1] =
      train_test_split 0 (1/2) (sortByKey id ([2, 0, 1] : List ℕ)) ∧
    train_test_split_ordered 0 (1/2) id ([2, 0, 1] : List ℕ) =
      train_test_split_ordered 0 (1/2) id [1, 2, 0] :=
  train_test_split_order_by_deterministic 0 (1/2) id (fun _ _ h => h)
    [2, 0, 1] [1, 2, 0] (by decide)

/-- C5: the CI workflow's lint step runs pylint exactly twice, and the two
invocations differ both in their `--fail-under` threshold (10 versus 9) and
in the message categories they disable (`typecheck,W,C,R` versus
`typecheck,E,C,R`). -/
theorem pylintWorkflow_two_invocations :
    pylintWorkflow.lintInvocations.length = 2 ∧
    pylintWorkflow.lintInvocations =
      [pylintErrorsInvocation, pylintWarningsInvocation] ∧
    pylintErrorsInvocation.failUnder ≠ pylintWarningsInvocation.failUnder ∧
    pylintErrorsInvocation.disable ≠ pylintWarningsInvocation.disable := by
  refine ⟨rfl, rfl, ?_, ?_⟩
  · norm_num [pylintErrorsInvocation, pylintWarningsInvocation]
  · simp [pylintErrorsInvocation, pylintWarningsInvocation]

/-- C6: the CI job's build strategy matrix lists exactly three Python
interpreter versions: 3.9, 3.10 and 3.11. -/
theorem pylintWorkflow_matrix_three_versions :
    pylintWorkflow.matrixPythonVersions = ["3.9", "3.10", "3.11"] ∧
    pylintWorkflow.matrixPythonVersions.length = 3 :=
  ⟨rfl, rfl⟩

/-- C7: a different seed generates a different value: `SEEDED_RANDOM 1`
differs from `SEEDED_RANDOM 0`, as the notebook's example asserts. -/
theorem SEEDED_RANDOM_one_ne_zero : SEEDED_RANDOM 1 ≠ SEEDED_RANDOM 0 := by
  norm_num [SEEDED_RANDOM]

/-- C8: sorting by the column eliminates split inconsistencies when the
column identifies rows uniquely (first conjunct, the sense in which ordering
"drastically decreases the likelihood of a collision"), but it does not
guarantee zero collisions when the sort column has duplicate values: two
arrival orders of the same two rows sharing the fare value 5 are sorted
differently, and the resulting splits select different rows (second
conjunct, a concrete collision). -/
theorem order_by_collision_possible_with_duplicates :
    (∀ (α : Type) (seed : ℕ) (testSize : ℚ) (key : α → ℕ),
      Function.Injective key → ∀ l1 l2 : List α, l1.Perm l2 →
        train_test_split_ordered seed testSize key l1 =
          train_test_split_ordered seed testSize key l2) ∧
    (([((0 : ℕ), (5 : ℕ)), (1, 5)] : List (ℕ × ℕ)).Perm [(1, 5), (0, 5)] ∧
      (((0 : ℕ), (5 : ℕ)) : ℕ × ℕ).2 = (((1 : ℕ), (5 : ℕ)) : ℕ × ℕ).2 ∧
      train_test_split_ordered 0 (1/2) Prod.snd
          ([((0 : ℕ), (5 : ℕ)), (1, 5)] : List (ℕ × ℕ)) ≠
        train_test_split_ordered 0 (1/2) Prod.snd [(1, 5), (0, 5)]) := by
  constructor
  · intro α seed testSize key hinj l1 l2 h
    unfold train_test_split_ordered
    rw [sortByKey_perm_eq key hinj h]
  · refine ⟨by decide, rfl, ?_⟩
    have h1 : train_test_split_ordered 0 (1/2) Prod.snd
        ([((0 : ℕ), (5 : ℕ)), (1, 5)] : List (ℕ × ℕ)) =
        ([(1, (1, 5))], [(0, (0, 5))]) := by
      norm_num [train_test_split_ordered, train_test_split, sortByKey,
        rowRandom, SEEDED_RANDOM, List.enum, List.enumFrom, List.filter]
    have h2 : train_test_split_ordered 0 (1/2) Prod.snd
        ([((1 : ℕ), (5 : ℕ)), (0, 5)] : List (ℕ × ℕ)) =
        ([(1, (0, 5))], [(0, (1, 5))]) := by
      norm_num [train_test_split_ordered, train_test_split, sortByKey,
        rowRandom, SEEDED_RANDOM, List.enum, List.enumFrom, List.filter]
    rw [h1, h2]
    decide

/-- Witness for C8's universally quantified conjunct at a concrete input:
the identity key on ℕ is injective and [4, 7] is a permutation of [7, 4]. -/
theorem order_by_collision_possible_with_duplicates_witness :
    train_test_split_ordered 3 (1/3) id ([4, 7] : List ℕ) =
      train_test_split_ordered 3 (1/3) id [7, 4] :=
  order_by_collision_possible_with_duplicates.1 ℕ 3 (1/3) id
    (fun _ _ h => h) [4, 7] [7, 4] (by decide)

/-- C9: for every seed, the value returned by `SEEDED_RANDOM` lies in the
half-open interval [0, 1): it is at least 0 and strictly less than 1. -/
theorem SEEDED_RANDOM_mem_Ico (seed : ℕ) :
    0 ≤ SEEDED_RANDOM seed ∧ SEEDED_RANDOM seed < 1 := by
  unfold SEEDED_RANDOM
  constructor
  · positivity
  · rw [div_lt_one (by norm_num)]
    have h : (1103515245 * seed + 12345) % 2147483648 < 2147483648 :=
      Nat.mod_lt _ (by norm_num)
    exact_mod_cast h

/-- C10: the two pylint invocations fail the CI job under complementary
conditions.  The first disables `typecheck,W,C,R` (warning, convention and
refactor categories, so only error-category findings can lower its score) and,
since pylint scores never exceed 10, it passes exactly when the score is a
perfect 10.  The second disables `typecheck,E,C,R` (error, convention and
refactor categories) and fails exactly when the warning score drops below 9,
allowing one point of slack for warnings. -/
theorem pylint_invocations_complementary :
    (∀ score : ℚ, score ≤ 10 →
      (¬ pylintFails pylintErrorsInvocation score ↔ score = 10)) ∧
    (∀ score : ℚ, pylintFails pylintWarningsInvocation score ↔ score < 9) ∧
    pylintErrorsInvocation.disable = ["typecheck", "W", "C", "R"] ∧
    pylintWarningsInvocation.disable = ["typecheck", "E", "C", "R"] := by
  refine ⟨?_, fun score => Iff.rfl, rfl, rfl⟩
  intro score hle
  show ¬ score < 10 ↔ score = 10
  constructor
  · intro h
    exact le_antisymm hle (not_lt.mp h)
  · intro h
    rw [h]
    exact lt_irrefl 10

/-- Witness for C10 at the concrete score 10: the first invocation does not
fail a perfect score. -/
theorem pylint_invocations_complementary_witness :
    ¬ pylintFails pylintErrorsInvocation 10 ↔ (10 : ℚ) = 10 :=
  pylint_invocations_complementary.1 10 le_rfl
